import Mathlib

/-
Verification of gradio/inputs.py, a deprecation shim module.

The module defines fourteen classes, each wrapping a component class
imported from gradio.components.  Every constructor emits a deprecation
warning via warnings.warn and then calls the superclass constructor,
forwarding its keyword arguments.  One class ( State) additionally
overrides get_template_context and get_shortcut_implementations.

The embedding below models each constructor as a function from its
(abstract) argument values to the list of observable effects it performs:
first the warnings.warn call, then the super().__init__ call with an
ordered list of keyword arguments.  Argument values are kept abstract
(a type parameter V): the Python code never inspects them, it only
forwards them, and parametricity in V reflects that.
-/

namespace GradioInputs

/-- A warnings.warn call: the message string and the warning category. -/
structure Warning where
  message : String
  category : String
deriving DecidableEq, Repr

/-- The text passed to warnings.warn by Textbox, Number, Slider, Checkbox,
CheckboxGroup, Radio, Dropdown and Image ("... your component from ..."). -/
def deprecationMessageSingular : String :=
  "Usage of gradio.inputs is deprecated, and will not be supported in the future, please import your component from gradio.components"

/-- The text passed to warnings.warn by Video, Audio, File, Dataframe,
Timeseries and State ("... your components from ..."). -/
def deprecationMessagePlural : String :=
  "Usage of gradio.inputs is deprecated, and will not be supported in the future, please import your components from gradio.components"

/-- The warning emitted by the first eight classes of the module. -/
def deprecationWarningSingular : Warning :=
  ⟨deprecationMessageSingular, "DeprecationWarning"⟩

/-- The warning emitted by the last six classes of the module. -/
def deprecationWarningPlural : Warning :=
  ⟨deprecationMessagePlural, "DeprecationWarning"⟩

/-- An observable effect of a shim constructor body: a warnings.warn call,
or the super().__init__ call with its keyword arguments in source order. -/
inductive Effect (V : Type) where
  | warn (w : Warning)
  | superInit (kwargs : List (String × V))

/-- The keyword arguments of the first super().__init__ call in a trace. -/
def superKwargsOf {V : Type} : List (Effect V) → Option (List (String × V))
  | [] => none
  | Effect.superInit ks :: _ => some ks
  | Effect.warn _ :: rest => superKwargsOf rest

/-- All warnings emitted in a trace, in order. -/
def warningsOf {V : Type} : List (Effect V) → List Warning
  | [] => []
  | Effect.warn w :: rest => w :: warningsOf rest
  | Effect.superInit _ :: rest => warningsOf rest

/-- Textbox.__init__ (src/gradio/inputs.py lines 43-66). -/
def Textbox.init (V : Type) (lines placeholder default numeric type label optional : V) :
    List (Effect V) :=
  [Effect.warn deprecationWarningSingular,
   Effect.superInit
     [("lines", lines), ("placeholder", placeholder), ("default", default),
      ("numeric", numeric), ("type", type), ("label", label), ("optional", optional)]]

/-- Number.__init__ (src/gradio/inputs.py lines 69-92). -/
def Number.init (V : Type) (default label optional : V) : List (Effect V) :=
  [Effect.warn deprecationWarningSingular,
   Effect.superInit [("default", default), ("label", label), ("optional", optional)]]

/-- Slider.__init__ (src/gradio/inputs.py lines 95-132).  Note the super
call lists label first, unlike the parameter list. -/
def Slider.init (V : Type) (minimum maximum step default label optional : V) :
    List (Effect V) :=
  [Effect.warn deprecationWarningSingular,
   Effect.superInit
     [("label", label), ("minimum", minimum), ("maximum", maximum),
      ("step", step), ("default", default), ("optional", optional)]]

/-- Checkbox.__init__ (src/gradio/inputs.py lines 135-158).  Note the super
call lists label before default, unlike the parameter list. -/
def Checkbox.init (V : Type) (default label optional : V) : List (Effect V) :=
  [Effect.warn deprecationWarningSingular,
   Effect.superInit [("label", label), ("default", default), ("optional", optional)]]

/-- CheckboxGroup.__init__ (src/gradio/inputs.py lines 161-190). -/
def CheckboxGroup.init (V : Type) (choices default type label optional : V) :
    List (Effect V) :=
  [Effect.warn deprecationWarningSingular,
   Effect.superInit
     [("choices", choices), ("default", default), ("type", type),
      ("label", label), ("optional", optional)]]

/-- Radio.__init__ (src/gradio/inputs.py lines 193-222). -/
def Radio.init (V : Type) (choices type default label optional : V) :
    List (Effect V) :=
  [Effect.warn deprecationWarningSingular,
   Effect.superInit
     [("choices", choices), ("type", type), ("default", default),
      ("label", label), ("optional", optional)]]

/-- Dropdown.__init__ (src/gradio/inputs.py lines 225-254). -/
def Dropdown.init (V : Type) (choices type default label optional : V) :
    List (Effect V) :=
  [Effect.warn deprecationWarningSingular,
   Effect.superInit
     [("choices", choices), ("type", type), ("default", default),
      ("label", label), ("optional", optional)]]

/-- Image.__init__ (src/gradio/inputs.py lines 257-299). -/
def Image.init (V : Type) (shape image_mode invert_colors source tool type label optional : V) :
    List (Effect V) :=
  [Effect.warn deprecationWarningSingular,
   Effect.superInit
     [("shape", shape), ("image_mode", image_mode), ("invert_colors", invert_colors),
      ("source", source), ("tool", tool), ("type", type), ("label", label),
      ("optional", optional)]]

/-- Video.__init__ (src/gradio/inputs.py lines 302-328).  The class
subclasses Component, not a Video component. -/
def Video.init (V : Type) (type source label optional : V) : List (Effect V) :=
  [Effect.warn deprecationWarningPlural,
   Effect.superInit
     [("type", type), ("source", source), ("label", label), ("optional", optional)]]

/-- Audio.__init__ (src/gradio/inputs.py lines 331-356). -/
def Audio.init (V : Type) (source type label optional : V) : List (Effect V) :=
  [Effect.warn deprecationWarningPlural,
   Effect.superInit
     [("source", source), ("type", type), ("label", label), ("optional", optional)]]

/-- File.__init__ (src/gradio/inputs.py lines 359-392). -/
def File.init (V : Type) (file_count type label keep_filename optional : V) :
    List (Effect V) :=
  [Effect.warn deprecationWarningPlural,
   Effect.superInit
     [("file_count", file_count), ("type", type), ("label", label),
      ("keep_filename", keep_filename), ("optional", optional)]]

/-- Dataframe.__init__ (src/gradio/inputs.py lines 395-440). -/
def Dataframe.init (V : Type)
    (headers row_count col_count datatype col_width default type label optional : V) :
    List (Effect V) :=
  [Effect.warn deprecationWarningPlural,
   Effect.superInit
     [("headers", headers), ("row_count", row_count), ("col_count", col_count),
      ("datatype", datatype), ("col_width", col_width), ("default", default),
      ("type", type), ("label", label), ("optional", optional)]]

/-- Timeseries.__init__ (src/gradio/inputs.py lines 443-468). -/
def Timeseries.init (V : Type) (x y label optional : V) : List (Effect V) :=
  [Effect.warn deprecationWarningPlural,
   Effect.superInit [("x", x), ("y", y), ("label", label), ("optional", optional)]]

/-- State.__init__ (src/gradio/inputs.py lines 471-494). -/
def State.init (V : Type) (label default optional : V) : List (Effect V) :=
  [Effect.warn deprecationWarningPlural,
   Effect.superInit [("label", label), ("default", default), ("optional", optional)]]

/-- Declared parameter names of Textbox.__init__, in source order (self omitted). -/
def Textbox.params : List String :=
  ["lines", "placeholder", "default", "numeric", "type", "label", "optional"]

/-- Declared parameter names of Number.__init__. -/
def Number.params : List String := ["default", "label", "optional"]

/-- Declared parameter names of Slider.__init__. -/
def Slider.params : List String :=
  ["minimum", "maximum", "step", "default", "label", "optional"]

/-- Declared parameter names of Checkbox.__init__. -/
def Checkbox.params : List String := ["default", "label", "optional"]

/-- Declared parameter names of CheckboxGroup.__init__. -/
def CheckboxGroup.params : List String :=
  ["choices", "default", "type", "label", "optional"]

/-- Declared parameter names of Radio.__init__. -/
def Radio.params : List String := ["choices", "type", "default", "label", "optional"]

/-- Declared parameter names of Dropdown.__init__. -/
def Dropdown.params : List String := ["choices", "type", "default", "label", "optional"]

/-- Declared parameter names of Image.__init__. -/
def Image.params : List String :=
  ["shape", "image_mode", "invert_colors", "source", "tool", "type", "label", "optional"]

/-- Declared parameter names of Video.__init__. -/
def Video.params : List String := ["type", "source", "label", "optional"]

/-- Declared parameter names of Audio.__init__. -/
def Audio.params : List String := ["source", "type", "label", "optional"]

/-- Declared parameter names of File.__init__. -/
def File.params : List String :=
  ["file_count", "type", "label", "keep_filename", "optional"]

/-- Declared parameter names of Dataframe.__init__. -/
def Dataframe.params : List String :=
  ["headers", "row_count", "col_count", "datatype", "col_width", "default",
   "type", "label", "optional"]

/-- Declared parameter names of Timeseries.__init__. -/
def Timeseries.params : List String := ["x", "y", "label", "optional"]

/-- Declared parameter names of State.__init__. -/
def State.params : List String := ["label", "default", "optional"]

/-- Structural description of one class definition of gradio/inputs.py:
its name, the expression it subclasses (which, at class-creation time,
resolves to the name imported from gradio.components), the methods defined
in its body (in source order), and, for each keyword argument of its
super().__init__ call in source order, the pair (keyword name, name of the
local variable passed as its value). -/
structure ClassDef where
  name : String
  parent : String
  methods : List String
  superKwargs : List (String × String)
deriving DecidableEq, Repr

/-- The names imported from gradio.components at the top of the module
(src/gradio/inputs.py lines 21-36). -/
def importedComponents : List String :=
  ["Audio", "Checkbox", "CheckboxGroup", "Component", "Dataframe", "Dropdown",
   "File", "Image", "Number", "Radio", "Slider", "State", "Textbox", "Timeseries"]

/-- The class definitions of gradio/inputs.py, in source order. -/
def inputsClasses : List ClassDef :=
  [⟨"Textbox", "Textbox", ["__init__"],
    [("lines", "lines"), ("placeholder", "placeholder"), ("default", "default"),
     ("numeric", "numeric"), ("type", "type"), ("label", "label"),
     ("optional", "optional")]⟩,
   ⟨"Number", "Number", ["__init__"],
    [("default", "default"), ("label", "label"), ("optional", "optional")]⟩,
   ⟨"Slider", "Slider", ["__init__"],
    [("label", "label"), ("minimum", "minimum"), ("maximum", "maximum"),
     ("step", "step"), ("default", "default"), ("optional", "optional")]⟩,
   ⟨"Checkbox", "Checkbox", ["__init__"],
    [("label", "label"), ("default", "default"), ("optional", "optional")]⟩,
   ⟨"CheckboxGroup", "CheckboxGroup", ["__init__"],
    [("choices", "choices"), ("default", "default"), ("type", "type"),
     ("label", "label"), ("optional", "optional")]⟩,
   ⟨"Radio", "Radio", ["__init__"],
    [("choices", "choices"), ("type", "type"), ("default", "default"),
     ("label", "label"), ("optional", "optional")]⟩,
   ⟨"Dropdown", "Dropdown", ["__init__"],
    [("choices", "choices"), ("type", "type"), ("default", "default"),
     ("label", "label"), ("optional", "optional")]⟩,
   ⟨"Image", "Image", ["__init__"],
    [("shape", "shape"), ("image_mode", "image_mode"),
     ("invert_colors", "invert_colors"), ("source", "source"), ("tool", "tool"),
     ("type", "type"), ("label", "label"), ("optional", "optional")]⟩,
   ⟨"Video", "Component", ["__init__"],
    [("type", "type"), ("source", "source"), ("label", "label"),
     ("optional", "optional")]⟩,
   ⟨"Audio", "Audio", ["__init__"],
    [("source", "source"), ("type", "type"), ("label", "label"),
     ("optional", "optional")]⟩,
   ⟨"File", "File", ["__init__"],
    [("file_count", "file_count"), ("type", "type"), ("label", "label"),
     ("keep_filename", "keep_filename"), ("optional", "optional")]⟩,
   ⟨"Dataframe", "Dataframe", ["__init__"],
    [("headers", "headers"), ("row_count", "row_count"), ("col_count", "col_count"),
     ("datatype", "datatype"), ("col_width", "col_width"), ("default", "default"),
     ("type", "type"), ("label", "label"), ("optional", "optional")]⟩,
   ⟨"Timeseries", "Timeseries", ["__init__"],
    [("x", "x"), ("y", "y"), ("label", "label"), ("optional", "optional")]⟩,
   ⟨"State", "State",
    ["__init__", "get_template_context", "get_shortcut_implementations"],
    [("label", "label"), ("default", "default"), ("optional", "optional")]⟩]

/-- A trace that consists of exactly one warnings.warn call, of category
DeprecationWarning, followed by the super().__init__ call and nothing else. -/
def warnThenDelegate {V : Type} (tr : List (Effect V)) : Prop :=
  ∃ w ks, tr = [Effect.warn w, Effect.superInit ks] ∧ w.category = "DeprecationWarning"

/-- The state produced by running a constructor trace against a parent
constructor semantics sem.  Python binds keyword arguments by name,
irrespective of the order they are written in the call, so the parent
semantics consumes the multiset of (keyword, value) pairs. -/
def constructStateM {V S : Type} (sem : Multiset (String × V) → S)
    (tr : List (Effect V)) : Option S :=
  (superKwargsOf tr).map (fun ks => sem (ks : Multiset (String × V)))

/-- The full observable outcome of running a constructor trace against a
fallible parent constructor semantics: the warnings the shim emitted, and
the parent's result (normal return or raised error) on the forwarded
keyword arguments. -/
def constructResult {V E S : Type} (sem : Multiset (String × V) → Except E S)
    (tr : List (Effect V)) : List Warning × Option (Except E S) :=
  (warningsOf tr, (superKwargsOf tr).map (fun ks => sem (ks : Multiset (String × V))))

/-- Python dict insertion: `d[k] = v`.  If the key is present its value is
updated in place, otherwise the pair is appended. -/
def dictInsert {V : Type} (k : String) (v : V) : List (String × V) → List (String × V)
  | [] => [(k, v)]
  | (a, b) :: rest => if k = a then (k, v) :: rest else (a, b) :: dictInsert k v rest

/-- Python dict lookup (keys of a dict are distinct, so first match suffices). -/
def dictLookup {V : Type} (k : String) : List (String × V) → Option V
  | [] => none
  | (a, b) :: rest => if k = a then some b else dictLookup k rest

/-- Python dict update: insert every pair of items, in order, into d.
`\x7b**d, **items\x7d` builds dictUpdate d items when d has no duplicate keys. -/
def dictUpdate {V : Type} (d : List (String × V)) (items : List (String × V)) :
    List (String × V) :=
  items.foldl (fun acc kv => dictInsert kv.1 kv.2 acc) d

/-- State.get_template_context (src/gradio/inputs.py lines 496-497):
`return \x7b"default": self.default, **super().get_template_context()\x7d`.
The value of self.default and the parent's context are abstract inputs. -/
def State.get_template_context (V : Type) (selfDefault : V)
    (superCtx : List (String × V)) : List (String × V) :=
  dictUpdate [("default", selfDefault)] superCtx

/-- State.get_shortcut_implementations (src/gradio/inputs.py lines 499-503):
returns the constant one-entry mapping from "state" to an empty dict. -/
def State.get_shortcut_implementations : List (String × List (String × String)) :=
  [("state", [])]

theorem dictLookup_dictInsert {V : Type} (k a : String) (v : V) (d : List (String × V)) :
    dictLookup k (dictInsert a v d) = if k = a then some v else dictLookup k d := by
  induction d with
  | nil => simp [dictInsert, dictLookup]
  | cons hd tl ih =>
    obtain ⟨a1, b1⟩ := hd
    simp only [dictInsert]
    by_cases h1 : a = a1
    · rw [if_pos h1]
      by_cases h2 : k = a
      · simp [dictLookup, h2, h1]
      · have h3 : ¬ k = a1 := fun hc => h2 (hc.trans h1.symm)
        simp [dictLookup, h2, h3]
    · rw [if_neg h1]
      by_cases h2 : k = a1
      · have h3 : ¬ k = a := fun hc => h1 (hc.symm.trans h2)
        have h4 : ¬ a1 = a := fun hc => h1 hc.symm
        simp [dictLookup, h2, h3, h4]
      · simp [dictLookup, h2, ih]

theorem dictLookup_eq_none {V : Type} (k : String) (l : List (String × V))
    (h : k ∉ l.map Prod.fst) : dictLookup k l = none := by
  induction l with
  | nil => rfl
  | cons hd tl ih =>
    obtain ⟨a, b⟩ := hd
    simp only [List.map_cons, List.mem_cons] at h
    push_neg at h
    simp [dictLookup, h.1, ih h.2]

theorem dictLookup_dictUpdate {V : Type} (k : String) (items : List (String × V)) :
    ∀ d : List (String × V), (items.map Prod.fst).Nodup →
      dictLookup k (dictUpdate d items) = (dictLookup k items <|> dictLookup k d) := by
  induction items with
  | nil =>
    intro d _
    simp [dictUpdate, dictLookup]
  | cons hd tl ih =>
    intro d h
    obtain ⟨a, v⟩ := hd
    simp only [List.map_cons, List.nodup_cons] at h
    have step : dictUpdate d ((a, v) :: tl) = dictUpdate (dictInsert a v d) tl := rfl
    rw [step, ih (dictInsert a v d) h.2, dictLookup_dictInsert]
    by_cases hk : k = a
    · subst hk
      have hnone : dictLookup k tl = none :=
        dictLookup_eq_none k tl (by simpa using h.1)
      simp [dictLookup, hnone]
    · simp [dictLookup, hk]

/-- Claim C10: State.get_template_context returns the parent context
extended with the key "default" mapped to self.default; a "default" entry
of the parent context takes precedence over the shim's entry, and every
other parent entry is present unchanged. -/
theorem C10_state_template_context (V : Type) (selfDefault : V)
    (superCtx : List (String × V)) (h : (superCtx.map Prod.fst).Nodup) (k : String) :
    dictLookup k ( State.get_template_context V selfDefault superCtx) =
      (dictLookup k superCtx <|> (if k = "default" then some selfDefault else none)) := by
  have hmain := dictLookup_dictUpdate k superCtx [("default", selfDefault)] h
  have htail : dictLookup k [("default", selfDefault)] =
      (if k = "default" then some selfDefault else none) := by
    simp [dictLookup]
  rw [ State.get_template_context, hmain, htail]

/-- Claim C10 witness: with parent context [("a", 1), ("default", 5)] and
self.default equal to 7, the parent's "default" entry wins. -/
theorem C10_state_template_context_witness :
    dictLookup "default" ( State.get_template_context Nat 7 [("a", 1), ("default", 5)]) =
      some 5 := by
  rw [C10_state_template_context Nat 7 [("a", 1), ("default", 5)] (by decide) "default"]
  decide

/-- Claim C1: every constructor of gradio/inputs.py forwards every received
argument value to the superclass constructor unchanged and under the keyword
equal to the parameter name it was received under; no value is transformed,
defaulted differently, dropped, or added.  The super call's keyword list is
a permutation of the declared parameter list paired with the received
values (Python binds keyword arguments by name, so order is immaterial). -/
theorem C1_arguments_forwarded_unchanged :
    (∀ (V : Type) (lines placeholder default numeric type label optional : V),
      ∃ ks, superKwargsOf ( Textbox.init V lines placeholder default numeric type label optional) = some ks ∧
        ks.Perm ( Textbox.params.zip [lines, placeholder, default, numeric, type, label, optional])) ∧
    (∀ (V : Type) (default label optional : V),
      ∃ ks, superKwargsOf ( Number.init V default label optional) = some ks ∧
        ks.Perm ( Number.params.zip [default, label, optional])) ∧
    (∀ (V : Type) (minimum maximum step default label optional : V),
      ∃ ks, superKwargsOf ( Slider.init V minimum maximum step default label optional) = some ks ∧
        ks.Perm ( Slider.params.zip [minimum, maximum, step, default, label, optional])) ∧
    (∀ (V : Type) (default label optional : V),
      ∃ ks, superKwargsOf ( Checkbox.init V default label optional) = some ks ∧
        ks.Perm ( Checkbox.params.zip [default, label, optional])) ∧
    (∀ (V : Type) (choices default type label optional : V),
      ∃ ks, superKwargsOf ( CheckboxGroup.init V choices default type label optional) = some ks ∧
        ks.Perm ( CheckboxGroup.params.zip [choices, default, type, label, optional])) ∧
    (∀ (V : Type) (choices type default label optional : V),
      ∃ ks, superKwargsOf ( Radio.init V choices type default label optional) = some ks ∧
        ks.Perm ( Radio.params.zip [choices, type, default, label, optional])) ∧
    (∀ (V : Type) (choices type default label optional : V),
      ∃ ks, superKwargsOf ( Dropdown.init V choices type default label optional) = some ks ∧
        ks.Perm ( Dropdown.params.zip [choices, type, default, label, optional])) ∧
    (∀ (V : Type) (shape image_mode invert_colors source tool type label optional : V),
      ∃ ks, superKwargsOf ( Image.init V shape image_mode invert_colors source tool type label optional) = some ks ∧
        ks.Perm ( Image.params.zip [shape, image_mode, invert_colors, source, tool, type, label, optional])) ∧
    (∀ (V : Type) (type source label optional : V),
      ∃ ks, superKwargsOf ( Video.init V type source label optional) = some ks ∧
        ks.Perm ( Video.params.zip [type, source, label, optional])) ∧
    (∀ (V : Type) (source type label optional : V),
      ∃ ks, superKwargsOf ( Audio.init V source type label optional) = some ks ∧
        ks.Perm ( Audio.params.zip [source, type, label, optional])) ∧
    (∀ (V : Type) (file_count type label keep_filename optional : V),
      ∃ ks, superKwargsOf ( File.init V file_count type label keep_filename optional) = some ks ∧
        ks.Perm ( File.params.zip [file_count, type, label, keep_filename, optional])) ∧
    (∀ (V : Type) (headers row_count col_count datatype col_width default type label optional : V),
      ∃ ks, superKwargsOf ( Dataframe.init V headers row_count col_count datatype col_width default type label optional) = some ks ∧
        ks.Perm ( Dataframe.params.zip [headers, row_count, col_count, datatype, col_width, default, type, label, optional])) ∧
    (∀ (V : Type) (x y label optional : V),
      ∃ ks, superKwargsOf ( Timeseries.init V x y label optional) = some ks ∧
        ks.Perm ( Timeseries.params.zip [x, y, label, optional])) ∧
    (∀ (V : Type) (label default optional : V),
      ∃ ks, superKwargsOf ( State.init V label default optional) = some ks ∧
        ks.Perm ( State.params.zip [label, default, optional])) := by
  refine ⟨?_, ?_, ?_, ?_, ?_, ?_, ?_, ?_, ?_, ?_, ?_, ?_, ?_, ?_⟩
  · intro V lines placeholder default numeric type label optional
    exact ⟨_, rfl, List.Perm.refl _⟩
  · intro V default label optional
    exact ⟨_, rfl, List.Perm.refl _⟩
  · intro V minimum maximum step default label optional
    exact ⟨_, rfl,
      (@List.perm_middle (String × V) ("label", label)
        [("minimum", minimum), ("maximum", maximum), ("step", step), ("default", default)]
        [("optional", optional)]).symm⟩
  · intro V default label optional
    exact ⟨_, rfl,
      List.Perm.swap ("default", default) ("label", label) [("optional", optional)]⟩
  · intro V choices default type label optional
    exact ⟨_, rfl, List.Perm.refl _⟩
  · intro V choices type default label optional
    exact ⟨_, rfl, List.Perm.refl _⟩
  · intro V choices type default label optional
    exact ⟨_, rfl, List.Perm.refl _⟩
  · intro V shape image_mode invert_colors source tool type label optional
    exact ⟨_, rfl, List.Perm.refl _⟩
  · intro V type source label optional
    exact ⟨_, rfl, List.Perm.refl _⟩
  · intro V source type label optional
    exact ⟨_, rfl, List.Perm.refl _⟩
  · intro V file_count type label keep_filename optional
    exact ⟨_, rfl, List.Perm.refl _⟩
  · intro V headers row_count col_count datatype col_width default type label optional
    exact ⟨_, rfl, List.Perm.refl _⟩
  · intro V x y label optional
    exact ⟨_, rfl, List.Perm.refl _⟩
  · intro V label default optional
    exact ⟨_, rfl, List.Perm.refl _⟩

/-- Claim C2: every constructor of gradio/inputs.py first emits exactly one
warning, of category DeprecationWarning, and only then calls the superclass
constructor; the warning always precedes the delegation, and the body
performs nothing else. -/
theorem C2_warn_precedes_delegation :
    (∀ (V : Type) (lines placeholder default numeric type label optional : V),
      warnThenDelegate ( Textbox.init V lines placeholder default numeric type label optional)) ∧
    (∀ (V : Type) (default label optional : V),
      warnThenDelegate ( Number.init V default label optional)) ∧
    (∀ (V : Type) (minimum maximum step default label optional : V),
      warnThenDelegate ( Slider.init V minimum maximum step default label optional)) ∧
    (∀ (V : Type) (default label optional : V),
      warnThenDelegate ( Checkbox.init V default label optional)) ∧
    (∀ (V : Type) (choices default type label optional : V),
      warnThenDelegate ( CheckboxGroup.init V choices default type label optional)) ∧
    (∀ (V : Type) (choices type default label optional : V),
      warnThenDelegate ( Radio.init V choices type default label optional)) ∧
    (∀ (V : Type) (choices type default label optional : V),
      warnThenDelegate ( Dropdown.init V choices type default label optional)) ∧
    (∀ (V : Type) (shape image_mode invert_colors source tool type label optional : V),
      warnThenDelegate ( Image.init V shape image_mode invert_colors source tool type label optional)) ∧
    (∀ (V : Type) (type source label optional : V),
      warnThenDelegate ( Video.init V type source label optional)) ∧
    (∀ (V : Type) (source type label optional : V),
      warnThenDelegate ( Audio.init V source type label optional)) ∧
    (∀ (V : Type) (file_count type label keep_filename optional : V),
      warnThenDelegate ( File.init V file_count type label keep_filename optional)) ∧
    (∀ (V : Type) (headers row_count col_count datatype col_width default type label optional : V),
      warnThenDelegate ( Dataframe.init V headers row_count col_count datatype col_width default type label optional)) ∧
    (∀ (V : Type) (x y label optional : V),
      warnThenDelegate ( Timeseries.init V x y label optional)) ∧
    (∀ (V : Type) (label default optional : V),
      warnThenDelegate ( State.init V label default optional)) := by
  refine ⟨?_, ?_, ?_, ?_, ?_, ?_, ?_, ?_, ?_, ?_, ?_, ?_, ?_, ?_⟩ <;>
    intros <;> exact ⟨_, _, rfl, rfl⟩

/-- Claim C9: for every class of gradio/inputs.py the emitted warnings are
independent of the constructor arguments: any two invocations of the same
class's constructor, on any argument values (even of different value
types), emit the identical warning list. -/
theorem C9_warning_argument_independent :
    (∀ (V W : Type) (p1 p2 p3 p4 p5 p6 p7 : V) (q1 q2 q3 q4 q5 q6 q7 : W),
      warningsOf ( Textbox.init V p1 p2 p3 p4 p5 p6 p7) =
        warningsOf ( Textbox.init W q1 q2 q3 q4 q5 q6 q7)) ∧
    (∀ (V W : Type) (p1 p2 p3 : V) (q1 q2 q3 : W),
      warningsOf ( Number.init V p1 p2 p3) = warningsOf ( Number.init W q1 q2 q3)) ∧
    (∀ (V W : Type) (p1 p2 p3 p4 p5 p6 : V) (q1 q2 q3 q4 q5 q6 : W),
      warningsOf ( Slider.init V p1 p2 p3 p4 p5 p6) =
        warningsOf ( Slider.init W q1 q2 q3 q4 q5 q6)) ∧
    (∀ (V W : Type) (p1 p2 p3 : V) (q1 q2 q3 : W),
      warningsOf ( Checkbox.init V p1 p2 p3) = warningsOf ( Checkbox.init W q1 q2 q3)) ∧
    (∀ (V W : Type) (p1 p2 p3 p4 p5 : V) (q1 q2 q3 q4 q5 : W),
      warningsOf ( CheckboxGroup.init V p1 p2 p3 p4 p5) =
        warningsOf ( CheckboxGroup.init W q1 q2 q3 q4 q5)) ∧
    (∀ (V W : Type) (p1 p2 p3 p4 p5 : V) (q1 q2 q3 q4 q5 : W),
      warningsOf ( Radio.init V p1 p2 p3 p4 p5) =
        warningsOf ( Radio.init W q1 q2 q3 q4 q5)) ∧
    (∀ (V W : Type) (p1 p2 p3 p4 p5 : V) (q1 q2 q3 q4 q5 : W),
      warningsOf ( Dropdown.init V p1 p2 p3 p4 p5) =
        warningsOf ( Dropdown.init W q1 q2 q3 q4 q5)) ∧
    (∀ (V W : Type) (p1 p2 p3 p4 p5 p6 p7 p8 : V) (q1 q2 q3 q4 q5 q6 q7 q8 : W),
      warningsOf ( Image.init V p1 p2 p3 p4 p5 p6 p7 p8) =
        warningsOf ( Image.init W q1 q2 q3 q4 q5 q6 q7 q8)) ∧
    (∀ (V W : Type) (p1 p2 p3 p4 : V) (q1 q2 q3 q4 : W),
      warningsOf ( Video.init V p1 p2 p3 p4) = warningsOf ( Video.init W q1 q2 q3 q4)) ∧
    (∀ (V W : Type) (p1 p2 p3 p4 : V) (q1 q2 q3 q4 : W),
      warningsOf ( Audio.init V p1 p2 p3 p4) = warningsOf ( Audio.init W q1 q2 q3 q4)) ∧
    (∀ (V W : Type) (p1 p2 p3 p4 p5 : V) (q1 q2 q3 q4 q5 : W),
      warningsOf ( File.init V p1 p2 p3 p4 p5) = warningsOf ( File.init W q1 q2 q3 q4 q5)) ∧
    (∀ (V W : Type) (p1 p2 p3 p4 p5 p6 p7 p8 p9 : V) (q1 q2 q3 q4 q5 q6 q7 q8 q9 : W),
      warningsOf ( Dataframe.init V p1 p2 p3 p4 p5 p6 p7 p8 p9) =
        warningsOf ( Dataframe.init W q1 q2 q3 q4 q5 q6 q7 q8 q9)) ∧
    (∀ (V W : Type) (p1 p2 p3 p4 : V) (q1 q2 q3 q4 : W),
      warningsOf ( Timeseries.init V p1 p2 p3 p4) =
        warningsOf ( Timeseries.init W q1 q2 q3 q4)) ∧
    (∀ (V W : Type) (p1 p2 p3 : V) (q1 q2 q3 : W),
      warningsOf ( State.init V p1 p2 p3) = warningsOf ( State.init W q1 q2 q3)) := by
  refine ⟨?_, ?_, ?_, ?_, ?_, ?_, ?_, ?_, ?_, ?_, ?_, ?_, ?_, ?_⟩ <;> intros <;> rfl

/-- Claim C8: gradio/inputs.py defines exactly fourteen shim classes, with
pairwise distinct names. -/
theorem C8_fourteen_classes :
    inputsClasses.length = 14 ∧ (inputsClasses.map fun c => c.name).Nodup := by
  refine ⟨rfl, ?_⟩
  decide

/-- Claim C3 counterexample: it is false that every class of
gradio/inputs.py defines nothing beyond its constructor: State also
defines get_template_context and get_shortcut_implementations. -/
theorem C3_counterexample :
    ¬ ∀ c ∈ inputsClasses, c.methods = ["__init__"] := by
  decide

/-- Claim C3 (amended): every class of gradio/inputs.py except State
defines only its constructor; State additionally defines the methods
get_template_context and get_shortcut_implementations. -/
theorem C3_state_defines_extra_methods :
    (inputsClasses.all fun c => c.name == "State" || c.methods == ["__init__"]) = true ∧
    ((inputsClasses.filter fun c => c.name == "State").map fun c => c.methods) =
      [["__init__", "get_template_context", "get_shortcut_implementations"]] := by
  exact ⟨rfl, rfl⟩

/-- Claim C4 counterexample: it is false that every class of
gradio/inputs.py subclasses the correspondingly named class: Video
subclasses Component. -/
theorem C4_counterexample :
    ¬ ∀ c ∈ inputsClasses, c.parent = c.name := by
  decide

/-- Claim C4 (amended): every class of gradio/inputs.py except Video
subclasses the correspondingly named class imported from
gradio.components; Video instead subclasses the base class Component, and
every parent is one of the names imported from gradio.components. -/
theorem C4_subclass_structure :
    ((inputsClasses.filter fun c => c.parent != c.name).map fun c => (c.name, c.parent)) =
      [("Video", "Component")] ∧
    (inputsClasses.all fun c => importedComponents.contains c.parent) = true := by
  exact ⟨rfl, rfl⟩

/-- Claim C6 counterexample: no class of gradio/inputs.py passes any
constructor argument to the superclass under a keyword name different from
the name under which it was received, so the claim that at least one class
renames a parameter is false. -/
theorem C6_counterexample :
    ¬ ∃ c ∈ inputsClasses, ∃ kv ∈ c.superKwargs, kv.1 ≠ kv.2 := by
  decide

/-- Claim C6 (amended): in every class of gradio/inputs.py, every keyword
argument of the super().__init__ call is passed under exactly the name of
the local variable holding the received value; no class renames any
parameter when delegating. -/
theorem C6_no_parameter_renamed :
    (inputsClasses.all fun c => c.superKwargs.all fun kv => kv.1 == kv.2) = true := by
  decide

/-- Claim C5: for any parent constructor semantics sem (the component
library is an external dependency, so it is universally quantified),
constructing through a shim class produces exactly the state the parent
class produces when constructed directly with the same arguments under the
declared parameter names, and the only additional observable effect of the
shim is the single deprecation warning. -/
theorem C5_shim_refines_parent :
    (∀ (V S : Type) (sem : Multiset (String × V) → S)
        (lines placeholder default numeric type label optional : V),
      constructStateM sem ( Textbox.init V lines placeholder default numeric type label optional) =
        some (sem (↑( Textbox.params.zip [lines, placeholder, default, numeric, type, label, optional]) : Multiset (String × V))) ∧
      warningsOf ( Textbox.init V lines placeholder default numeric type label optional) =
        [deprecationWarningSingular]) ∧
    (∀ (V S : Type) (sem : Multiset (String × V) → S) (default label optional : V),
      constructStateM sem ( Number.init V default label optional) =
        some (sem (↑( Number.params.zip [default, label, optional]) : Multiset (String × V))) ∧
      warningsOf ( Number.init V default label optional) = [deprecationWarningSingular]) ∧
    (∀ (V S : Type) (sem : Multiset (String × V) → S)
        (minimum maximum step default label optional : V),
      constructStateM sem ( Slider.init V minimum maximum step default label optional) =
        some (sem (↑( Slider.params.zip [minimum, maximum, step, default, label, optional]) : Multiset (String × V))) ∧
      warningsOf ( Slider.init V minimum maximum step default label optional) =
        [deprecationWarningSingular]) ∧
    (∀ (V S : Type) (sem : Multiset (String × V) → S) (default label optional : V),
      constructStateM sem ( Checkbox.init V default label optional) =
        some (sem (↑( Checkbox.params.zip [default, label, optional]) : Multiset (String × V))) ∧
      warningsOf ( Checkbox.init V default label optional) = [deprecationWarningSingular]) ∧
    (∀ (V S : Type) (sem : Multiset (String × V) → S) (choices default type label optional : V),
      constructStateM sem ( CheckboxGroup.init V choices default type label optional) =
        some (sem (↑( CheckboxGroup.params.zip [choices, default, type, label, optional]) : Multiset (String × V))) ∧
      warningsOf ( CheckboxGroup.init V choices default type label optional) =
        [deprecationWarningSingular]) ∧
    (∀ (V S : Type) (sem : Multiset (String × V) → S) (choices type default label optional : V),
      constructStateM sem ( Radio.init V choices type default label optional) =
        some (sem (↑( Radio.params.zip [choices, type, default, label, optional]) : Multiset (String × V))) ∧
      warningsOf ( Radio.init V choices type default label optional) =
        [deprecationWarningSingular]) ∧
    (∀ (V S : Type) (sem : Multiset (String × V) → S) (choices type default label optional : V),
      constructStateM sem ( Dropdown.init V choices type default label optional) =
        some (sem (↑( Dropdown.params.zip [choices, type, default, label, optional]) : Multiset (String × V))) ∧
      warningsOf ( Dropdown.init V choices type default label optional) =
        [deprecationWarningSingular]) ∧
    (∀ (V S : Type) (sem : Multiset (String × V) → S)
        (shape image_mode invert_colors source tool type label optional : V),
      constructStateM sem ( Image.init V shape image_mode invert_colors source tool type label optional) =
        some (sem (↑( Image.params.zip [shape, image_mode, invert_colors, source, tool, type, label, optional]) : Multiset (String × V))) ∧
      warningsOf ( Image.init V shape image_mode invert_colors source tool type label optional) =
        [deprecationWarningSingular]) ∧
    (∀ (V S : Type) (sem : Multiset (String × V) → S) (type source label optional : V),
      constructStateM sem ( Video.init V type source label optional) =
        some (sem (↑( Video.params.zip [type, source, label, optional]) : Multiset (String × V))) ∧
      warningsOf ( Video.init V type source label optional) = [deprecationWarningPlural]) ∧
    (∀ (V S : Type) (sem : Multiset (String × V) → S) (source type label optional : V),
      constructStateM sem ( Audio.init V source type label optional) =
        some (sem (↑( Audio.params.zip [source, type, label, optional]) : Multiset (String × V))) ∧
      warningsOf ( Audio.init V source type label optional) = [deprecationWarningPlural]) ∧
    (∀ (V S : Type) (sem : Multiset (String × V) → S)
        (file_count type label keep_filename optional : V),
      constructStateM sem ( File.init V file_count type label keep_filename optional) =
        some (sem (↑( File.params.zip [file_count, type, label, keep_filename, optional]) : Multiset (String × V))) ∧
      warningsOf ( File.init V file_count type label keep_filename optional) =
        [deprecationWarningPlural]) ∧
    (∀ (V S : Type) (sem : Multiset (String × V) → S)
        (headers row_count col_count datatype col_width default type label optional : V),
      constructStateM sem ( Dataframe.init V headers row_count col_count datatype col_width default type label optional) =
        some (sem (↑( Dataframe.params.zip [headers, row_count, col_count, datatype, col_width, default, type, label, optional]) : Multiset (String × V))) ∧
      warningsOf ( Dataframe.init V headers row_count col_count datatype col_width default type label optional) =
        [deprecationWarningPlural]) ∧
    (∀ (V S : Type) (sem : Multiset (String × V) → S) (x y label optional : V),
      constructStateM sem ( Timeseries.init V x y label optional) =
        some (sem (↑( Timeseries.params.zip [x, y, label, optional]) : Multiset (String × V))) ∧
      warningsOf ( Timeseries.init V x y label optional) = [deprecationWarningPlural]) ∧
    (∀ (V S : Type) (sem : Multiset (String × V) → S) (label default optional : V),
      constructStateM sem ( State.init V label default optional) =
        some (sem (↑( State.params.zip [label, default, optional]) : Multiset (String × V))) ∧
      warningsOf ( State.init V label default optional) = [deprecationWarningPlural]) := by
  refine ⟨?_, ?_, ?_, ?_, ?_, ?_, ?_, ?_, ?_, ?_, ?_, ?_, ?_, ?_⟩
  · intro V S sem lines placeholder default numeric type label optional
    exact ⟨rfl, rfl⟩
  · intro V S sem default label optional
    exact ⟨rfl, rfl⟩
  · intro V S sem minimum maximum step default label optional
    refine ⟨?_, rfl⟩
    exact congrArg (fun m => some (sem m))
      (Multiset.coe_eq_coe.mpr
        ((@List.perm_middle (String × V) ("label", label)
          [("minimum", minimum), ("maximum", maximum), ("step", step), ("default", default)]
          [("optional", optional)]).symm))
  · intro V S sem default label optional
    refine ⟨?_, rfl⟩
    exact congrArg (fun m => some (sem m))
      (Multiset.coe_eq_coe.mpr
        (List.Perm.swap ("default", default) ("label", label) [("optional", optional)]))
  · intro V S sem choices default type label optional
    exact ⟨rfl, rfl⟩
  · intro V S sem choices type default label optional
    exact ⟨rfl, rfl⟩
  · intro V S sem choices type default label optional
    exact ⟨rfl, rfl⟩
  · intro V S sem shape image_mode invert_colors source tool type label optional
    exact ⟨rfl, rfl⟩
  · intro V S sem type source label optional
    exact ⟨rfl, rfl⟩
  · intro V S sem source type label optional
    exact ⟨rfl, rfl⟩
  · intro V S sem file_count type label keep_filename optional
    exact ⟨rfl, rfl⟩
  · intro V S sem headers row_count col_count datatype col_width default type label optional
    exact ⟨rfl, rfl⟩
  · intro V S sem x y label optional
    exact ⟨rfl, rfl⟩
  · intro V S sem label default optional
    exact ⟨rfl, rfl⟩

/-- Claim C7: no shim constructor parses, validates or inspects its
arguments (they stay abstract and are only forwarded): against any
fallible parent constructor semantics sem, the shim's outcome is exactly
the parent's outcome on the same arguments - so the shim raises if and
only if the parent raises on those arguments - and the only effect the
shim itself contributes is the single already-emitted deprecation
warning. -/
theorem C7_error_propagation :
    (∀ (V E S : Type) (sem : Multiset (String × V) → Except E S)
        (lines placeholder default numeric type label optional : V),
      constructResult sem ( Textbox.init V lines placeholder default numeric type label optional) =
        ([deprecationWarningSingular],
         some (sem (↑( Textbox.params.zip [lines, placeholder, default, numeric, type, label, optional]) : Multiset (String × V))))) ∧
    (∀ (V E S : Type) (sem : Multiset (String × V) → Except E S) (default label optional : V),
      constructResult sem ( Number.init V default label optional) =
        ([deprecationWarningSingular],
         some (sem (↑( Number.params.zip [default, label, optional]) : Multiset (String × V))))) ∧
    (∀ (V E S : Type) (sem : Multiset (String × V) → Except E S)
        (minimum maximum step default label optional : V),
      constructResult sem ( Slider.init V minimum maximum step default label optional) =
        ([deprecationWarningSingular],
         some (sem (↑( Slider.params.zip [minimum, maximum, step, default, label, optional]) : Multiset (String × V))))) ∧
    (∀ (V E S : Type) (sem : Multiset (String × V) → Except E S) (default label optional : V),
      constructResult sem ( Checkbox.init V default label optional) =
        ([deprecationWarningSingular],
         some (sem (↑( Checkbox.params.zip [default, label, optional]) : Multiset (String × V))))) ∧
    (∀ (V E S : Type) (sem : Multiset (String × V) → Except E S)
        (choices default type label optional : V),
      constructResult sem ( CheckboxGroup.init V choices default type label optional) =
        ([deprecationWarningSingular],
         some (sem (↑( CheckboxGroup.params.zip [choices, default, type, label, optional]) : Multiset (String × V))))) ∧
    (∀ (V E S : Type) (sem : Multiset (String × V) → Except E S)
        (choices type default label optional : V),
      constructResult sem ( Radio.init V choices type default label optional) =
        ([deprecationWarningSingular],
         some (sem (↑( Radio.params.zip [choices, type, default, label, optional]) : Multiset (String × V))))) ∧
    (∀ (V E S : Type) (sem : Multiset (String × V) → Except E S)
        (choices type default label optional : V),
      constructResult sem ( Dropdown.init V choices type default label optional) =
        ([deprecationWarningSingular],
         some (sem (↑( Dropdown.params.zip [choices, type, default, label, optional]) : Multiset (String × V))))) ∧
    (∀ (V E S : Type) (sem : Multiset (String × V) → Except E S)
        (shape image_mode invert_colors source tool type label optional : V),
      constructResult sem ( Image.init V shape image_mode invert_colors source tool type label optional) =
        ([deprecationWarningSingular],
         some (sem (↑( Image.params.zip [shape, image_mode, invert_colors, source, tool, type, label, optional]) : Multiset (String × V))))) ∧
    (∀ (V E S : Type) (sem : Multiset (String × V) → Except E S) (type source label optional : V),
      constructResult sem ( Video.init V type source label optional) =
        ([deprecationWarningPlural],
         some (sem (↑( Video.params.zip [type, source, label, optional]) : Multiset (String × V))))) ∧
    (∀ (V E S : Type) (sem : Multiset (String × V) → Except E S) (source type label optional : V),
      constructResult sem ( Audio.init V source type label optional) =
        ([deprecationWarningPlural],
         some (sem (↑( Audio.params.zip [source, type, label, optional]) : Multiset (String × V))))) ∧
    (∀ (V E S : Type) (sem : Multiset (String × V) → Except E S)
        (file_count type label keep_filename optional : V),
      constructResult sem ( File.init V file_count type label keep_filename optional) =
        ([deprecationWarningPlural],
         some (sem (↑( File.params.zip [file_count, type, label, keep_filename, optional]) : Multiset (String × V))))) ∧
    (∀ (V E S : Type) (sem : Multiset (String × V) → Except E S)
        (headers row_count col_count datatype col_width default type label optional : V),
      constructResult sem ( Dataframe.init V headers row_count col_count datatype col_width default type label optional) =
        ([deprecationWarningPlural],
         some (sem (↑( Dataframe.params.zip [headers, row_count, col_count, datatype, col_width, default, type, label, optional]) : Multiset (String × V))))) ∧
    (∀ (V E S : Type) (sem : Multiset (String × V) → Except E S) (x y label optional : V),
      constructResult sem ( Timeseries.init V x y label optional) =
        ([deprecationWarningPlural],
         some (sem (↑( Timeseries.params.zip [x, y, label, optional]) : Multiset (String × V))))) ∧
    (∀ (V E S : Type) (sem : Multiset (String × V) → Except E S) (label default optional : V),
      constructResult sem ( State.init V label default optional) =
        ([deprecationWarningPlural],
         some (sem (↑( State.params.zip [label, default, optional]) : Multiset (String × V))))) := by
  refine ⟨?_, ?_, ?_, ?_, ?_, ?_, ?_, ?_, ?_, ?_, ?_, ?_, ?_, ?_⟩
  · intro V E S sem lines placeholder default numeric type label optional
    rfl
  · intro V E S sem default label optional
    rfl
  · intro V E S sem minimum maximum step default label optional
    exact congrArg (fun m => ([deprecationWarningSingular], some (sem m)))
      (Multiset.coe_eq_coe.mpr
        ((@List.perm_middle (String × V) ("label", label)
          [("minimum", minimum), ("maximum", maximum), ("step", step), ("default", default)]
          [("optional", optional)]).symm))
  · intro V E S sem default label optional
    exact congrArg (fun m => ([deprecationWarningSingular], some (sem m)))
      (Multiset.coe_eq_coe.mpr
        (List.Perm.swap ("default", default) ("label", label) [("optional", optional)]))
  · intro V E S sem choices default type label optional
    rfl
  · intro V E S sem choices type default label optional
    rfl
  · intro V E S sem choices type default label optional
    rfl
  · intro V E S sem shape image_mode invert_colors source tool type label optional
    rfl
  · intro V E S sem type source label optional
    rfl
  · intro V E S sem source type label optional
    rfl
  · intro V E S sem file_count type label keep_filename optional
    rfl
  · intro V E S sem headers row_count col_count datatype col_width default type label optional
    rfl
  · intro V E S sem x y label optional
    rfl
  · intro V E S sem label default optional
    rfl

end GradioInputs
